import Mathlib

/-!
Shallow embedding of the Portuguese Kitchen restaurant booking system
(Django app `bookings`: models.py, forms.py, views.py, admin.py).

Dates are modelled as ordinal day numbers (`Nat`), timestamps as `Nat`,
and the database as explicit lists of records.  Statuses are the string
choices of `Booking.STATUS_CHOICES` as an inductive type.  Randomness for
reference generation is an explicit stream of indices into the 36-character
alphabet, and the unbounded retry loop is given explicit fuel.
-/

namespace PK

abbrev UserId := Nat
abbrev SlotId := Nat
abbrev BookingId := Nat
abbrev Date := Nat

/-- The `status` choices of `Booking.STATUS_CHOICES` (models.py). -/
inductive Status
  | Pending
  | Confirmed
  | Seated
  | Completed
  | Cancelled
  | NoShow
deriving DecidableEq, Repr

/-- A status counts toward capacity iff it is in
`['Pending', 'Confirmed', 'Seated']`, the filter used by
`TimeSlot.get_available_capacity` and the views. -/
def Status.isActive : Status → Bool
  | .Pending => true
  | .Confirmed => true
  | .Seated => true
  | _ => false

/-- `Table` model (models.py): table_number unique, capacity, availability. -/
structure Table where
  tableNumber : Nat
  capacity : Int
  isAvailable : Bool
deriving DecidableEq, Repr

/-- `TimeSlot` model (models.py): time of day, optional max capacity
(`null=True`), active flag. -/
structure TimeSlot where
  id : SlotId
  time : Nat
  maxCapacity : Option Int
  isActive : Bool
deriving DecidableEq, Repr

/-- `Booking` model (models.py).  The `user` foreign key is non-nullable
(`on_delete=models.CASCADE`, no `null=True`), and the model declares no
guest_name / guest_email / guest_phone fields. -/
structure Booking where
  id : BookingId
  user : UserId
  table : Option Nat
  slot : SlotId
  bookingDate : Date
  numberOfGuests : Int
  status : Status
  referenceNumber : String
  cancelledAt : Option Nat
deriving DecidableEq, Repr

/-- The persistent store: Table, TimeSlot and Booking rows, plus the next
primary key handed out for bookings. -/
structure DB where
  tables : List Table
  slots : List TimeSlot
  bookings : List Booking
  nextId : BookingId
deriving DecidableEq, Repr

/-- The aggregate
`Booking.objects.filter(timeslot=…, booking_date=…, status__in=['Pending','Confirmed','Seated']).aggregate(Sum('number_of_guests')) or 0`
shared by `TimeSlot.get_available_capacity` and the views (an empty sum is 0). -/
def activeBookedGuests (db : DB) (sid : SlotId) (d : Date) : Int :=
  ((db.bookings.filter
      (fun b => b.slot == sid && b.bookingDate == d && b.status.isActive)).map
    (fun b => b.numberOfGuests)).sum

/-- `max_cap = self.max_capacity if self.max_capacity else 40`
(models.py:300).  Python truthiness: both `None` and `0` fall back to 40. -/
def TimeSlot.effectiveMaxCap (s : TimeSlot) : Int :=
  match s.maxCapacity with
  | some m => if m = 0 then 40 else m
  | none => 40

/-- `TimeSlot.get_available_capacity(booking_date)` (models.py:249-304):
sum the active bookings for this slot and date, take the slot capacity with
the truthiness fallback to 40, and return the difference unclamped. -/
def getAvailableCapacity (db : DB) (s : TimeSlot) (d : Date) : Int :=
  s.effectiveMaxCap - activeBookedGuests db s.id d

/-- Per-slot availability as computed by the `get_available_timeslots`
endpoint (views.py:529-556): `total_capacity = timeslot.max_capacity` with no
fallback, so when `max_capacity` is NULL the subtraction raises a TypeError
that the surrounding handler converts into an error response; that failure is
modelled as `none`. -/
def endpointAvailableCapacity (db : DB) (s : TimeSlot) (d : Date) : Option Int :=
  match s.maxCapacity with
  | none => none
  | some m => some (m - activeBookedGuests db s.id d)

/-- Effective capacity in the spec's words: the slot's configured max, or 40
if unset.  Stated for comparison with the code paths above. -/
def specEffectiveCapacity (s : TimeSlot) : Int :=
  match s.maxCapacity with
  | some m => m
  | none => 40

/-- `string.ascii_uppercase + string.digits`, the candidate alphabet of
`Booking.generate_reference_number` (models.py:557-560). -/
def refAlphabet : List Char :=
  ['A','B','C','D','E','F','G','H','I','J','K','L','M',
   'N','O','P','Q','R','S','T','U','V','W','X','Y','Z',
   '0','1','2','3','4','5','6','7','8','9']

/-- One draw of `''.join(random.choices(string.ascii_uppercase + string.digits, k=8))`:
the random stream supplies eight alphabet indices per attempt. -/
def mkCandidate (rand : Nat → Fin 36) (attempt : Nat) : String :=
  String.mk ((List.range 8).map (fun i =>
    refAlphabet.get (Fin.cast (show (36 : Nat) = refAlphabet.length from rfl)
      (rand (8 * attempt + i)))))

/-- The `while True` retry loop of `generate_reference_number`, with explicit
fuel replacing the unbounded loop: draw a candidate, return it unless it
collides with an existing `reference_number`. -/
def genRefAux (existing : List String) (rand : Nat → Fin 36) :
    Nat → Nat → Option String
  | _, 0 => none
  | attempt, fuel + 1 =>
    if mkCandidate rand attempt ∈ existing then
      genRefAux existing rand (attempt + 1) fuel
    else
      some (mkCandidate rand attempt)

/-- `Booking.generate_reference_number` (models.py:520-565), against the
list of already-persisted reference numbers. -/
def generateReferenceNumber (existing : List String) (rand : Nat → Fin 36)
    (fuel : Nat) : Option String :=
  genRefAux existing rand 0 fuel

/-- Who submits a booking request: an authenticated user, or a guest
supplying name, email and phone (forms.py guest fields). -/
inductive Requester
  | authUser (uid : UserId)
  | guest (name email phone : String)
deriving DecidableEq, Repr

/-- How a create request fails.  `formError` covers the field-level and
cross-field `ValidationError`s other than capacity; `capacity` is the
`clean()` availability failure carrying the computed availability;
`integrity` is a database IntegrityError at `save()` (NULL user on the guest
path, or the `(user, booking_date, timeslot)` unique_together constraint);
`refGenFuel` is the fuel artifact of the modelled retry loop. -/
inductive CreateError
  | formError
  | capacity (available : Int)
  | integrity
  | refGenFuel
deriving DecidableEq, Repr

inductive CreateResult
  | ok (db : DB) (b : Booking)
  | err (e : CreateError)
deriving DecidableEq, Repr

/-- The create operation: `booking_page` (views.py:32-90) running
`BookingForm` validation (forms.py:117-212) and then persisting.
Checks in source order: the `timeslot` field only accepts a slot in the
active-slot queryset; `clean_booking_date` rejects past dates;
`clean_number_of_guests` enforces 1..8; `clean()` compares
`get_available_capacity` with the party size and then, for guests, requires
name, email and phone; finally the view sets a generated reference and
status `Pending` and saves.  The save raises IntegrityError when `user` is
NULL (the guest path: the model has no guest fields and a non-nullable user
foreign key) or when `(user, booking_date, timeslot)` already exists. -/
def createBooking (db : DB) (today : Date) (req : Requester) (slot : TimeSlot)
    (d : Date) (n : Int) (rand : Nat → Fin 36) (fuel : Nat) : CreateResult :=
  if ¬ (slot ∈ db.slots ∧ slot.isActive = true) then .err .formError
  else if d < today then .err .formError
  else if n < 1 ∨ 8 < n then .err .formError
  else if getAvailableCapacity db slot d < n then
    .err (.capacity (getAvailableCapacity db slot d))
  else
    match req with
    | .guest name email phone =>
      if name = "" ∨ email = "" ∨ phone = "" then .err .formError
      else .err .integrity
    | .authUser uid =>
      match generateReferenceNumber (db.bookings.map (fun x => x.referenceNumber))
          rand fuel with
      | none => .err .refGenFuel
      | some ref =>
        if db.bookings.any
            (fun b => b.user == uid && b.bookingDate == d && b.slot == slot.id)
        then .err .integrity
        else
          .ok
            { db with
              bookings := db.bookings ++
                [{ id := db.nextId, user := uid, table := none, slot := slot.id,
                   bookingDate := d, numberOfGuests := n, status := .Pending,
                   referenceNumber := ref, cancelledAt := none }],
              nextId := db.nextId + 1 }
            { id := db.nextId, user := uid, table := none, slot := slot.id,
              bookingDate := d, numberOfGuests := n, status := .Pending,
              referenceNumber := ref, cancelledAt := none }

inductive EditError
  | notFound
  | ownership
  | pastBooking
  | cancelledBooking
  | formError
  | capacityForm (available : Int)
  | integrity
deriving DecidableEq, Repr

inductive EditResult
  | ok (db : DB)
  | err (e : EditError)
deriving DecidableEq, Repr

/-- The edit operation: `edit_booking` (views.py:313-431).  After the
ownership, past-date and not-cancelled guards, the POSTed values go through
`BookingForm` validation with `instance=booking`, whose `clean()` compares
`get_available_capacity` on the target slot and date — a sum over all active
bookings there, including this booking itself when its slot and date are
unchanged — with the new party size.  The view's AC8 block then compares
`updated_booking.number_of_guests != booking.number_of_guests`, but
`form.save(commit=False)` returns the same instance that form validation
already mutated in place, so the comparison is between a value and itself,
is always False, and the table-capacity re-check it guards never runs.  The
final save keeps the user and reference and can still raise the
`(user, booking_date, timeslot)` unique_together IntegrityError. -/
def editBooking (db : DB) (today : Date) (requester : UserId) (ref : String)
    (newSlot : TimeSlot) (newDate : Date) (newN : Int) : EditResult :=
  match db.bookings.find? (fun b => b.referenceNumber == ref) with
  | none => .err .notFound
  | some X =>
    if X.user ≠ requester then .err .ownership
    else if X.bookingDate < today then .err .pastBooking
    else if X.status = .Cancelled then .err .cancelledBooking
    else if ¬ (newSlot ∈ db.slots ∧ newSlot.isActive = true) then .err .formError
    else if newDate < today then .err .formError
    else if newN < 1 ∨ 8 < newN then .err .formError
    else if getAvailableCapacity db newSlot newDate < newN then
      .err (.capacityForm (getAvailableCapacity db newSlot newDate))
    else if db.bookings.any (fun b =>
        b.id != X.id && b.user == X.user && b.bookingDate == newDate &&
          b.slot == newSlot.id) then
      .err .integrity
    else
      .ok
        { db with
          bookings := db.bookings.map (fun b =>
            if b.id = X.id then
              { X with slot := newSlot.id, bookingDate := newDate,
                       numberOfGuests := newN }
            else b) }

inductive CancelResult
  | notFound
  | ownership
  | pastBooking
  | alreadyCancelledWarning
  | cancelled
deriving DecidableEq, Repr

/-- The cancel operation: `cancel_booking` (views.py:434-490) POST path plus
`Booking.cancel` (models.py:606-648).  Ownership, past-date and
already-cancelled guards in source order; on success the booking's status
becomes `Cancelled` and `cancelled_at` is stamped with the current time. -/
def cancelBooking (db : DB) (today : Date) (now : Nat) (requester : UserId)
    (ref : String) : CancelResult × DB :=
  match db.bookings.find? (fun b => b.referenceNumber == ref) with
  | none => (.notFound, db)
  | some X =>
    if X.user ≠ requester then (.ownership, db)
    else if X.bookingDate < today then (.pastBooking, db)
    else if X.status = .Cancelled then (.alreadyCancelledWarning, db)
    else
      (.cancelled,
        { db with
          bookings := db.bookings.map (fun b =>
            if b.id = X.id then
              { X with status := .Cancelled, cancelledAt := some now }
            else b) })

/-- A staff status edit through `BookingAdmin` (admin.py:86-174): `status`
is in `list_editable` and in the editable fieldsets while `cancelled_at` is
read-only, and the admin save goes through `Booking.save` which only
auto-fills a missing reference number — it neither stamps nor clears
`cancelled_at`. -/
def adminSetStatus (db : DB) (bid : BookingId) (st : Status) : DB :=
  { db with
    bookings := db.bookings.map (fun b =>
      if b.id = bid then { b with status := st } else b) }

/-- Deleting a User cascades to bookings: the `user` foreign key is declared
with `on_delete=models.CASCADE` (models.py:379-384), so every booking row
whose user matches is removed with the account, whatever its status. -/
def deleteUser (db : DB) (uid : UserId) : DB :=
  { db with bookings := db.bookings.filter (fun b => b.user ≠ uid) }

/-- The capacity invariant of the spec: for every stored time slot and every
date, the active party sizes sum to at most the slot's effective capacity. -/
def capacityInvariant (db : DB) : Prop :=
  ∀ s ∈ db.slots, ∀ d : Date, activeBookedGuests db s.id d ≤ s.effectiveMaxCap

/-- The stamp invariant of the spec: `cancelled_at` is set iff the status is
`Cancelled`. -/
def cancelledIffStamped (db : DB) : Prop :=
  ∀ b ∈ db.bookings, (b.cancelledAt ≠ none ↔ b.status = Status.Cancelled)

instance (db : DB) : Decidable (cancelledIffStamped db) :=
  inferInstanceAs (Decidable (∀ b ∈ db.bookings,
    (b.cancelledAt ≠ none ↔ b.status = Status.Cancelled)))

/-- Structural well-formedness of a store: positive party sizes (the model
validators), distinct booking primary keys, distinct slot primary keys. -/
structure DBwf (db : DB) : Prop where
  guestsPos : ∀ b ∈ db.bookings, 1 ≤ b.numberOfGuests
  idsNodup : (db.bookings.map (fun b => b.id)).Nodup
  slotIdsNodup : (db.slots.map (fun s => s.id)).Nodup

/-- The contribution of one booking row to the active sum of a (slot, date)
pair: its party size when it sits on that pair with an active status, else 0. -/
def activeGuestsOf (sid : SlotId) (d : Date) (b : Booking) : Int :=
  if b.slot = sid ∧ b.bookingDate = d ∧ b.status.isActive = true then
    b.numberOfGuests
  else 0

/-- A 19:00 slot with no configured max capacity. -/
def slotW : TimeSlot := { id := 1, time := 1140, maxCapacity := none, isActive := true }

/-- A degenerate random stream: always the first alphabet index. -/
def randW : Nat → Fin 36 := fun _ => 0

/-- An empty store with one active slot. -/
def dbW : DB := { tables := [], slots := [slotW], bookings := [], nextId := 1 }

/-- The booking persisted by the witness create on `dbW`. -/
def bW : Booking :=
  { id := 1, user := 7, table := none, slot := 1, bookingDate := 10,
    numberOfGuests := 4, status := .Pending, referenceNumber := "AAAAAAAA",
    cancelledAt := none }

/-- The store after the witness create. -/
def dbW1 : DB := { tables := [], slots := [slotW], bookings := [bW], nextId := 2 }

/-- The store after the witness edit of `bW` to a party of 6. -/
def dbW1e : DB :=
  { tables := [], slots := [slotW],
    bookings := [{ bW with numberOfGuests := 6 }], nextId := 2 }

/-- The store after the witness cancel of `bW` at time 99. -/
def dbW1c : DB :=
  { tables := [], slots := [slotW],
    bookings := [{ bW with status := .Cancelled, cancelledAt := some 99 }],
    nextId := 2 }

/-- A random stream whose first attempt collides with "AAAAAAAA" and whose
second attempt yields "BBBBBBBB". -/
def randRetry : Nat → Fin 36 := fun k => if k < 8 then 0 else 1

/-- An 18:00 slot for the edit scenarios. -/
def slotC6 : TimeSlot := { id := 2, time := 1080, maxCapacity := none, isActive := true }

/-- The booking whose edit is examined in the C6 scenario. -/
def bC6 : Booking :=
  { id := 1, user := 1, table := none, slot := 2, bookingDate := 10,
    numberOfGuests := 5, status := .Pending, referenceNumber := "EDITME00",
    cancelledAt := none }

/-- Slot 2 on day 10 holds `bC6` (5 guests) plus 30 guests of other users:
35 of the 40 effective seats are taken. -/
def dbC6 : DB :=
  { tables := [], slots := [slotC6],
    bookings :=
      [bC6,
       { id := 2, user := 2, table := none, slot := 2, bookingDate := 10,
         numberOfGuests := 8, status := .Confirmed, referenceNumber := "EDITAA01",
         cancelledAt := none },
       { id := 3, user := 3, table := none, slot := 2, bookingDate := 10,
         numberOfGuests := 8, status := .Seated, referenceNumber := "EDITAA02",
         cancelledAt := none },
       { id := 4, user := 4, table := none, slot := 2, bookingDate := 10,
         numberOfGuests := 8, status := .Pending, referenceNumber := "EDITAA03",
         cancelledAt := none },
       { id := 5, user := 5, table := none, slot := 2, bookingDate := 10,
         numberOfGuests := 6, status := .Pending, referenceNumber := "EDITAA04",
         cancelledAt := none }],
    nextId := 6 }

/-- A 20:00 slot for the C5 scenario. -/
def slotC5 : TimeSlot := { id := 3, time := 1200, maxCapacity := none, isActive := true }

/-- Slot 3 on day 10 has 35 of 40 effective seats taken: 5 remain. -/
def dbC5 : DB :=
  { tables := [], slots := [slotC5],
    bookings :=
      [{ id := 1, user := 2, table := none, slot := 3, bookingDate := 10,
         numberOfGuests := 8, status := .Pending, referenceNumber := "CREAT001",
         cancelledAt := none },
       { id := 2, user := 3, table := none, slot := 3, bookingDate := 10,
         numberOfGuests := 8, status := .Confirmed, referenceNumber := "CREAT002",
         cancelledAt := none },
       { id := 3, user := 4, table := none, slot := 3, bookingDate := 10,
         numberOfGuests := 8, status := .Seated, referenceNumber := "CREAT003",
         cancelledAt := none },
       { id := 4, user := 5, table := none, slot := 3, bookingDate := 10,
         numberOfGuests := 8, status := .Pending, referenceNumber := "CREAT004",
         cancelledAt := none },
       { id := 5, user := 6, table := none, slot := 3, bookingDate := 10,
         numberOfGuests := 3, status := .Pending, referenceNumber := "CREAT005",
         cancelledAt := none }],
    nextId := 6 }

/-- An already-cancelled booking of user 1, dated day 9. -/
def bC7 : Booking :=
  { id := 1, user := 1, table := none, slot := 1, bookingDate := 9,
    numberOfGuests := 2, status := .Cancelled, referenceNumber := "CANCEL01",
    cancelledAt := some 55 }

def dbC7 : DB :=
  { tables := [], slots := [slotW], bookings := [bC7], nextId := 2 }

/-- A 21:00 slot capped at 10 guests. -/
def slotO : TimeSlot := { id := 4, time := 1260, maxCapacity := some 10, isActive := true }

/-- Slot 4 on day 5 is overbooked: 16 active guests against a cap of 10. -/
def dbO : DB :=
  { tables := [], slots := [slotO],
    bookings :=
      [{ id := 1, user := 2, table := none, slot := 4, bookingDate := 5,
         numberOfGuests := 8, status := .Pending, referenceNumber := "OVERBK01",
         cancelledAt := none },
       { id := 2, user := 3, table := none, slot := 4, bookingDate := 5,
         numberOfGuests := 8, status := .Confirmed, referenceNumber := "OVERBK02",
         cancelledAt := none }],
    nextId := 3 }

/-- A slot with a configured max capacity of 30, for the agreement witness. -/
def slotC30 : TimeSlot := { id := 9, time := 600, maxCapacity := some 30, isActive := true }

/-- The self-excluding active sum computed by the edit view's AC8 block
(views.py:367-373): active bookings of the target (timeslot, date) with
`exclude(id=booking.id)`. -/
def activeBookedGuestsExcl (db : DB) (bid : BookingId) (sid : SlotId)
    (d : Date) : Int :=
  ((db.bookings.filter (fun b =>
      b.slot == sid && b.bookingDate == d && b.status.isActive
        && b.id != bid)).map
    (fun b => b.numberOfGuests)).sum

theorem activeCond_iff (sid : SlotId) (d : Date) (b : Booking) :
    (b.slot == sid && b.bookingDate == d && b.status.isActive) = true ↔
      (b.slot = sid ∧ b.bookingDate = d ∧ b.status.isActive = true) := by
  simp [Bool.and_eq_true, and_assoc]

theorem sum_guests_filter (sid : SlotId) (d : Date) :
    ∀ l : List Booking,
      ((l.filter
          (fun b => b.slot == sid && b.bookingDate == d && b.status.isActive)).map
        (fun b => b.numberOfGuests)).sum = (l.map (activeGuestsOf sid d)).sum
  | [] => rfl
  | a :: l => by
    have ih := sum_guests_filter sid d l
    by_cases h : (a.slot == sid && a.bookingDate == d && a.status.isActive) = true
    · rw [List.filter_cons, if_pos h, List.map_cons, List.sum_cons, ih,
        List.map_cons, List.sum_cons]
      simp only [activeGuestsOf]
      rw [if_pos ((activeCond_iff sid d a).mp h)]
    · rw [List.filter_cons, if_neg h, ih, List.map_cons, List.sum_cons]
      simp only [activeGuestsOf]
      rw [if_neg (fun hc => h ((activeCond_iff sid d a).mpr hc)), zero_add]

theorem activeBookedGuests_eq_sum_map (db : DB) (sid : SlotId) (d : Date) :
    activeBookedGuests db sid d = (db.bookings.map (activeGuestsOf sid d)).sum :=
  sum_guests_filter sid d db.bookings

theorem activeGuestsOf_nonneg {b : Booking} (hb : 1 ≤ b.numberOfGuests)
    (sid : SlotId) (d : Date) : 0 ≤ activeGuestsOf sid d b := by
  unfold activeGuestsOf
  split
  · omega
  · exact le_refl 0

theorem map_replace_of_not_mem (i : BookingId) (Y : Booking) :
    ∀ l : List Booking, (∀ b ∈ l, b.id ≠ i) →
      l.map (fun b => if b.id = i then Y else b) = l
  | [], _ => rfl
  | a :: l, h => by
    rw [List.map_cons, if_neg (h a (List.mem_cons_self a l)),
      map_replace_of_not_mem i Y l (fun b hb => h b (List.mem_cons_of_mem a hb))]

theorem sum_map_replace (g : Booking → Int) (Y : Booking) :
    ∀ (l : List Booking) (X : Booking), X ∈ l →
      (l.map (fun b => b.id)).Nodup →
      ((l.map (fun b => if b.id = X.id then Y else b)).map g).sum
        = (l.map g).sum - g X + g Y
  | [], X, hX, _ => absurd hX (List.not_mem_nil X)
  | a :: l, X, hX, hnd => by
    rw [List.map_cons] at hnd
    have hnd' := List.nodup_cons.mp hnd
    rcases List.mem_cons.mp hX with rfl | hX'
    · have htail : ∀ b ∈ l, b.id ≠ X.id := fun b hb hEq =>
        hnd'.1 (hEq ▸ List.mem_map_of_mem (fun x => x.id) hb)
      rw [List.map_cons, if_pos rfl, map_replace_of_not_mem X.id Y l htail,
        List.map_cons, List.sum_cons, List.map_cons, List.sum_cons]
      omega
    · have haX : a.id ≠ X.id := fun hEq =>
        hnd'.1 (hEq ▸ List.mem_map_of_mem (fun x => x.id) hX')
      rw [List.map_cons, if_neg haX, List.map_cons, List.sum_cons,
        List.map_cons, List.sum_cons, sum_map_replace g Y l X hX' hnd'.2]
      omega

theorem createBooking_ok_elim {db : DB} {today : Date} {req : Requester}
    {slot : TimeSlot} {d : Date} {n : Int} {rand : Nat → Fin 36} {fuel : Nat}
    {db' : DB} {b : Booking}
    (h : createBooking db today req slot d n rand fuel = .ok db' b) :
    ∃ uid ref, req = .authUser uid
      ∧ (slot ∈ db.slots ∧ slot.isActive = true) ∧ ¬ d < today
      ∧ ¬ (n < 1 ∨ 8 < n) ∧ ¬ getAvailableCapacity db slot d < n
      ∧ generateReferenceNumber (db.bookings.map (fun x => x.referenceNumber))
          rand fuel = some ref
      ∧ b = { id := db.nextId, user := uid, table := none, slot := slot.id,
              bookingDate := d, numberOfGuests := n, status := .Pending,
              referenceNumber := ref, cancelledAt := none }
      ∧ db' = { db with bookings := db.bookings ++ [b],
                        nextId := db.nextId + 1 } := by
  unfold createBooking at h
  split_ifs at h with h1 h2 h3 h4
  cases req with
  | guest name email phone =>
    dsimp only [] at h
    split_ifs at h
  | authUser uid =>
    dsimp only [] at h
    cases hg : generateReferenceNumber (db.bookings.map (fun x => x.referenceNumber))
        rand fuel with
    | none => rw [hg] at h; exact CreateResult.noConfusion h
    | some ref =>
      rw [hg] at h
      dsimp only [] at h
      split_ifs at h with h5
      injection h with hdb hb
      subst hb
      subst hdb
      exact ⟨uid, ref, rfl, h1, h2, h3, h4, rfl, rfl, rfl⟩

theorem editBooking_ok_elim {db : DB} {today : Date} {u : UserId} {ref : String}
    {s' : TimeSlot} {d' : Date} {n' : Int} {db' : DB}
    (h : editBooking db today u ref s' d' n' = .ok db') :
    ∃ X, db.bookings.find? (fun b => b.referenceNumber == ref) = some X
      ∧ X.user = u ∧ ¬ X.bookingDate < today ∧ X.status ≠ .Cancelled
      ∧ (s' ∈ db.slots ∧ s'.isActive = true) ∧ ¬ d' < today
      ∧ ¬ (n' < 1 ∨ 8 < n') ∧ ¬ getAvailableCapacity db s' d' < n'
      ∧ db' = { db with bookings := db.bookings.map (fun b =>
          if b.id = X.id then
            { X with slot := s'.id, bookingDate := d', numberOfGuests := n' }
          else b) } := by
  unfold editBooking at h
  cases hf : db.bookings.find? (fun b => b.referenceNumber == ref) with
  | none => rw [hf] at h; exact EditResult.noConfusion h
  | some X =>
    rw [hf] at h
    dsimp only [] at h
    split_ifs at h with h1 h2 h3 h4 h5 h6 h7 h8
    injection h with hdb
    subst hdb
    exact ⟨X, rfl, not_ne_iff.mp h1, h2, h3, h4, h5, h6, h7, rfl⟩

theorem sum_add_contrib_le {db : DB} {nb : Booking} {slot : TimeSlot}
    (hwf : DBwf db) (hinv : capacityInvariant db) (hslot : slot ∈ db.slots)
    (hnb : nb.slot = slot.id)
    (hcap : activeBookedGuests db slot.id nb.bookingDate + nb.numberOfGuests
              ≤ slot.effectiveMaxCap) :
    ∀ s ∈ db.slots, ∀ d : Date,
      activeBookedGuests db s.id d + activeGuestsOf s.id d nb
        ≤ s.effectiveMaxCap := by
  intro s hs d
  by_cases hp : nb.slot = s.id ∧ nb.bookingDate = d ∧ nb.status.isActive = true
  · obtain rfl : s = slot :=
      List.inj_on_of_nodup_map hwf.slotIdsNodup hs hslot
        (by rw [← hp.1, hnb])
    have hd : d = nb.bookingDate := hp.2.1.symm
    subst hd
    rw [activeGuestsOf, if_pos hp]
    exact hcap
  · rw [activeGuestsOf, if_neg hp, add_zero]
    exact hinv s hs d

theorem replace_sum_le {db : DB} (hwf : DBwf db) (hinv : capacityInvariant db)
    {X Y : Booking} (hX : X ∈ db.bookings) {s' : TimeSlot} (hs' : s' ∈ db.slots)
    (hY : Y.slot = s'.id)
    (hcap : activeBookedGuests db s'.id Y.bookingDate + Y.numberOfGuests
      ≤ s'.effectiveMaxCap) :
    ∀ s ∈ db.slots, ∀ d : Date,
      ((db.bookings.map (fun b => if b.id = X.id then Y else b)).map
        (activeGuestsOf s.id d)).sum ≤ s.effectiveMaxCap := by
  intro s hs d
  rw [sum_map_replace (activeGuestsOf s.id d) Y db.bookings X hX hwf.idsNodup,
    ← activeBookedGuests_eq_sum_map]
  have hgX : 0 ≤ activeGuestsOf s.id d X :=
    activeGuestsOf_nonneg (hwf.guestsPos X hX) s.id d
  by_cases hp : Y.slot = s.id ∧ Y.bookingDate = d ∧ Y.status.isActive = true
  · have hgY : activeGuestsOf s.id d Y = Y.numberOfGuests := by
      rw [activeGuestsOf, if_pos hp]
    obtain rfl : s = s' :=
      List.inj_on_of_nodup_map hwf.slotIdsNodup hs hs' (by rw [← hp.1, hY])
    have hd : Y.bookingDate = d := hp.2.1
    subst hd
    omega
  · have hgY : activeGuestsOf s.id d Y = 0 := by
      rw [activeGuestsOf, if_neg hp]
    have hbound := hinv s hs d
    omega

theorem append_sum_le {db : DB} (hwf : DBwf db) (hinv : capacityInvariant db)
    {nb : Booking} {slot : TimeSlot} (hslot : slot ∈ db.slots)
    (hnb : nb.slot = slot.id)
    (hcap : activeBookedGuests db slot.id nb.bookingDate + nb.numberOfGuests
      ≤ slot.effectiveMaxCap) :
    ∀ s ∈ db.slots, ∀ d : Date,
      ((db.bookings ++ [nb]).map (activeGuestsOf s.id d)).sum
        ≤ s.effectiveMaxCap := by
  intro s hs d
  rw [List.map_append, List.sum_append, List.map_cons, List.map_nil,
    List.sum_cons, List.sum_nil, add_zero, ← activeBookedGuests_eq_sum_map]
  exact sum_add_contrib_le hwf hinv hslot hnb hcap s hs d

theorem createBooking_ok_invariant {db : DB} {today : Date} {req : Requester}
    {slot : TimeSlot} {d : Date} {n : Int} {rand : Nat → Fin 36} {fuel : Nat}
    {db' : DB} {b : Booking} (hwf : DBwf db) (hinv : capacityInvariant db)
    (h : createBooking db today req slot d n rand fuel = .ok db' b) :
    capacityInvariant db' := by
  obtain ⟨uid, ref, -, hslot, -, hn, hcap, -, hb, hdb⟩ := createBooking_ok_elim h
  subst hb
  subst hdb
  intro s hs d₀
  have hs' : s ∈ db.slots := hs
  rw [activeBookedGuests_eq_sum_map]
  refine append_sum_le hwf hinv hslot.1 ?_ ?_ s hs' d₀
  · rfl
  · show activeBookedGuests db slot.id d + n ≤ slot.effectiveMaxCap
    simp only [getAvailableCapacity] at hcap
    omega

theorem editBooking_ok_invariant {db : DB} {today : Date} {u : UserId}
    {ref : String} {s' : TimeSlot} {d' : Date} {n' : Int} {db' : DB}
    (hwf : DBwf db) (hinv : capacityInvariant db)
    (h : editBooking db today u ref s' d' n' = .ok db') :
    capacityInvariant db' := by
  obtain ⟨X, hf, -, -, -, hslot, -, hn, hcap, hdb⟩ := editBooking_ok_elim h
  subst hdb
  have hX : X ∈ db.bookings := List.mem_of_find?_eq_some hf
  intro s hs d₀
  have hs' : s ∈ db.slots := hs
  rw [activeBookedGuests_eq_sum_map]
  refine replace_sum_le hwf hinv hX hslot.1 ?_ ?_ s hs' d₀
  · rfl
  · show activeBookedGuests db s'.id d' + n' ≤ s'.effectiveMaxCap
    simp only [getAvailableCapacity] at hcap
    omega

theorem mkCandidate_length (rand : Nat → Fin 36) (a : Nat) :
    (mkCandidate rand a).length = 8 := rfl

theorem get_mem_of_fin {α : Type} (l : List α) (v : Fin l.length) :
    l.get v ∈ l := by
  cases v with
  | mk j hj => exact List.get_mem l j hj

theorem mkCandidate_chars (rand : Nat → Fin 36) (a : Nat) :
    ∀ c ∈ (mkCandidate rand a).toList, c ∈ refAlphabet := by
  intro c hc
  simp only [mkCandidate, String.toList, String.data] at hc
  obtain ⟨i, hi, rfl⟩ := List.mem_map.mp hc
  exact get_mem_of_fin refAlphabet _

theorem genRefAux_spec (existing : List String) (rand : Nat → Fin 36) :
    ∀ (fuel attempt : Nat) (r : String),
      genRefAux existing rand attempt fuel = some r →
      r.length = 8 ∧ (∀ c ∈ r.toList, c ∈ refAlphabet) ∧ r ∉ existing
  | 0, _, _, h => Option.noConfusion h
  | fuel + 1, attempt, r, h => by
    simp only [genRefAux] at h
    split_ifs at h with hmem
    · exact genRefAux_spec existing rand fuel (attempt + 1) r h
    · injection h with h
      subst h
      exact ⟨mkCandidate_length rand attempt, mkCandidate_chars rand attempt,
        hmem⟩

/-! Concrete stores used by witnesses and counterexamples. -/

theorem dbW_wf : DBwf dbW := ⟨by decide, by decide, by decide⟩

theorem dbW1_wf : DBwf dbW1 := ⟨by decide, by decide, by decide⟩

theorem dbW_inv : capacityInvariant dbW := by
  intro s hs d
  have hsw : s = slotW := by simpa [dbW] using hs
  subst hsw
  show (0 : Int) ≤ 40
  norm_num

/-- C1: for every (timeslot, date) pair the summed active party sizes stay
within the slot's effective capacity: on a well-formed store satisfying the
invariant, every successful create and every successful edit yields a store
that still satisfies it (sequential model of the two operations). -/
theorem capacity_invariant_preserved
    (db : DB) (today : Date) (req : Requester) (slot : TimeSlot) (d : Date)
    (n : Int) (rand : Nat → Fin 36) (fuel : Nat) (u : UserId) (ref : String)
    (s' : TimeSlot) (d' : Date) (n' : Int)
    (hwf : DBwf db) (hinv : capacityInvariant db) :
    (∀ db' b, createBooking db today req slot d n rand fuel = .ok db' b →
      capacityInvariant db')
    ∧ (∀ db', editBooking db today u ref s' d' n' = .ok db' →
      capacityInvariant db') :=
  ⟨fun _ _ h => createBooking_ok_invariant hwf hinv h,
   fun _ h => editBooking_ok_invariant hwf hinv h⟩

/-- Witness for C1: a concrete successful create (empty day, party of 4)
and a concrete successful edit (4 → 6 guests) both land in stores that
satisfy the capacity invariant. -/
theorem capacity_invariant_preserved_witness :
    capacityInvariant dbW1 ∧ capacityInvariant dbW1e := by
  have h1 : capacityInvariant dbW1 :=
    (capacity_invariant_preserved dbW 0 (.authUser 7) slotW 10 4 randW 1
      7 "AAAAAAAA" slotW 10 4 dbW_wf dbW_inv).1 dbW1 bW (by decide)
  refine ⟨h1, ?_⟩
  exact (capacity_invariant_preserved dbW1 0 (.authUser 7) slotW 10 4 randW 1
    7 "AAAAAAAA" slotW 10 6 dbW1_wf h1).2 dbW1e (by decide)

/-- C2: `get_available_capacity` returns exactly the effective capacity
minus the active party-size sum of the (timeslot, date) pair, and never
clamps: whenever the active sum exceeds the effective capacity the returned
value is negative rather than 0. -/
theorem getAvailableCapacity_unclamped (db : DB) (s : TimeSlot) (d : Date) :
    getAvailableCapacity db s d
      = s.effectiveMaxCap - activeBookedGuests db s.id d
    ∧ (s.effectiveMaxCap < activeBookedGuests db s.id d →
        getAvailableCapacity db s d < 0) :=
  ⟨rfl, fun h => by simp only [getAvailableCapacity]; omega⟩

/-- Witness for C2 at an overbooked store: cap 10, active sum 16, and the
function returns a negative availability. -/
theorem getAvailableCapacity_unclamped_witness :
    slotO.effectiveMaxCap < activeBookedGuests dbO slotO.id 5
    ∧ getAvailableCapacity dbO slotO 5 < 0 :=
  ⟨by decide, (getAvailableCapacity_unclamped dbO slotO 5).2 (by decide)⟩

/-- C3 counterexample: for a slot whose `max_capacity` is unset the
timeslot-listing endpoint does not return `effective capacity − active sum`
(which would be 40 − 0 here): its capacity subtraction fails (TypeError on
`None`, surfaced as an error response), so the claim that every
availability-computing operation uses the max-or-40 effective capacity is
false at this input. -/
theorem endpoint_capacity_fallback_counterexample :
    endpointAvailableCapacity dbW slotW 5
      ≠ some (specEffectiveCapacity slotW - activeBookedGuests dbW slotW.id 5) := by
  decide

/-- C3 amended: the model's `get_available_capacity` and the
`get_available_timeslots` endpoint agree whenever `max_capacity` is set and
non-zero, but when it is unset the endpoint fails instead of applying the
model's 40 default. -/
theorem capacity_paths_agreement (db : DB) (s : TimeSlot) (d : Date) :
    (∀ m : Int, s.maxCapacity = some m → m ≠ 0 →
      endpointAvailableCapacity db s d = some (getAvailableCapacity db s d))
    ∧ (s.maxCapacity = none → endpointAvailableCapacity db s d = none) := by
  constructor
  · intro m hm hm0
    simp [endpointAvailableCapacity, getAvailableCapacity,
      TimeSlot.effectiveMaxCap, hm, hm0]
  · intro hm
    simp [endpointAvailableCapacity, hm]

/-- Witness for the C3 amended theorem: agreement on a slot capped at 30,
endpoint failure on a slot with no cap. -/
theorem capacity_paths_agreement_witness :
    endpointAvailableCapacity dbW slotC30 5
      = some (getAvailableCapacity dbW slotC30 5)
    ∧ endpointAvailableCapacity dbW slotW 5 = none :=
  ⟨(capacity_paths_agreement dbW slotC30 5).1 30 rfl (by decide),
   (capacity_paths_agreement dbW slotW 5).2 rfl⟩

/-- C4: whenever the reference generator returns a code, that code has
exactly 8 characters, each drawn from A–Z/0–9, and differs from every
reference persisted at the time of the uniqueness check. -/
theorem generateReferenceNumber_spec (existing : List String)
    (rand : Nat → Fin 36) (fuel : Nat) (r : String)
    (h : generateReferenceNumber existing rand fuel = some r) :
    r.length = 8 ∧ (∀ c ∈ r.toList, c ∈ refAlphabet) ∧ r ∉ existing :=
  genRefAux_spec existing rand fuel 0 r h

/-- Witness for C4: against a store already holding "AAAAAAAA" the generator
retries past the collision and returns the fresh, well-formed "BBBBBBBB". -/
theorem generateReferenceNumber_spec_witness :
    generateReferenceNumber ["AAAAAAAA"] randRetry 2 = some "BBBBBBBB"
    ∧ ("BBBBBBBB".length = 8
        ∧ (∀ c ∈ "BBBBBBBB".toList, c ∈ refAlphabet)
        ∧ "BBBBBBBB" ∉ ["AAAAAAAA"]) :=
  ⟨by decide, generateReferenceNumber_spec ["AAAAAAAA"] randRetry 2 "BBBBBBBB"
    (by decide)⟩

/-- C5: a create request whose party size exceeds the available capacity of
the chosen (timeslot, date) fails with the capacity error carrying that
availability and persists nothing; a create request that passes every check
persists exactly one new booking, with status Pending and a fresh
well-formed generated reference. -/
theorem createBooking_capacity_gate
    (db : DB) (today : Date) (req : Requester) (slot : TimeSlot) (d : Date)
    (n : Int) (rand : Nat → Fin 36) (fuel : Nat) :
    ((slot ∈ db.slots ∧ slot.isActive = true) → ¬ d < today →
      ¬ (n < 1 ∨ 8 < n) → getAvailableCapacity db slot d < n →
      createBooking db today req slot d n rand fuel
        = .err (.capacity (getAvailableCapacity db slot d)))
    ∧ (∀ db' b, createBooking db today req slot d n rand fuel = .ok db' b →
        db'.bookings = db.bookings ++ [b] ∧ b.status = .Pending
        ∧ b.numberOfGuests = n ∧ b.bookingDate = d ∧ b.slot = slot.id
        ∧ b.referenceNumber.length = 8
        ∧ (∀ c ∈ b.referenceNumber.toList, c ∈ refAlphabet)
        ∧ b.referenceNumber ∉ db.bookings.map (fun x => x.referenceNumber)) := by
  constructor
  · intro hslot hd hn hcap
    unfold createBooking
    rw [if_neg (not_not_intro hslot), if_neg hd, if_neg hn, if_pos hcap]
  · intro db' b h
    obtain ⟨uid, ref, -, -, -, -, -, hg, hb, hdb⟩ := createBooking_ok_elim h
    subst hb
    subst hdb
    have hg' : genRefAux (db.bookings.map (fun x => x.referenceNumber))
        rand 0 fuel = some ref := hg
    obtain ⟨hlen, hchars, hfresh⟩ :=
      genRefAux_spec (db.bookings.map (fun x => x.referenceNumber)) rand fuel 0
        ref hg'
    exact ⟨rfl, rfl, rfl, rfl, rfl, hlen, hchars, hfresh⟩

/-- Witness for C5: with 5 seats remaining a request for 6 fails with
CapacityError carrying the availability 5, and the concrete successful
create appends one Pending booking. -/
theorem createBooking_capacity_gate_witness :
    createBooking dbC5 0 (.authUser 9) slotC5 10 6 randW 2
      = .err (.capacity (getAvailableCapacity dbC5 slotC5 10))
    ∧ getAvailableCapacity dbC5 slotC5 10 = 5
    ∧ dbW1.bookings = dbW.bookings ++ [bW] ∧ bW.status = .Pending := by
  refine ⟨(createBooking_capacity_gate dbC5 0 (.authUser 9) slotC5 10 6
      randW 2).1 (by decide) (by decide) (by decide) (by decide),
    by decide, ?_, ?_⟩
  · exact ((createBooking_capacity_gate dbW 0 (.authUser 7) slotW 10 4
      randW 1).2 dbW1 bW (by decide)).1
  · exact ((createBooking_capacity_gate dbW 0 (.authUser 7) slotW 10 4
      randW 1).2 dbW1 bW (by decide)).2.1

/-- C6 counterexample: booking EDITME00 holds 5 seats, other active bookings
hold 30 of the slot's effective 40, so a change to 8 guests fits within the
remaining capacity excluding the booking's own prior contribution
(30 + 8 ≤ 40); yet the edit is rejected by the form-level capacity check,
which counts the booking's own 5 seats (availability 5 < 8).  The claim that
edits are re-validated excluding the booking's own prior contribution is
therefore false at this input. -/
theorem edit_excluding_self_counterexample :
    activeBookedGuestsExcl dbC6 1 slotC6.id 10 + 8 ≤ slotC6.effectiveMaxCap
    ∧ getAvailableCapacity dbC6 slotC6 10 = 5
    ∧ editBooking dbC6 0 1 "EDITME00" slotC6 10 8
        = .err (.capacityForm 5) := by decide

/-- C6 amended: the only capacity gate an edit passes is the form-level
check against the target slot's effective capacity, counting all active
bookings there including the booking's own prior contribution (the view's
self-excluding AC8 re-check compares the form-mutated instance with itself
and never runs); an edit failing that check is rejected with the computed
availability and, by construction, writes nothing; and a successful edit
satisfies the including-self bound, so it never pushes the target pair over
its effective capacity. -/
theorem editBooking_capacity_check (db : DB) (today : Date) (u : UserId)
    (ref : String) (s' : TimeSlot) (d' : Date) (n' : Int) (X : Booking)
    (hf : db.bookings.find? (fun b => b.referenceNumber == ref) = some X) :
    (X.user = u → ¬ X.bookingDate < today → X.status ≠ .Cancelled →
      (s' ∈ db.slots ∧ s'.isActive = true) → ¬ d' < today →
      ¬ (n' < 1 ∨ 8 < n') → getAvailableCapacity db s' d' < n' →
      editBooking db today u ref s' d' n'
        = .err (.capacityForm (getAvailableCapacity db s' d')))
    ∧ (∀ db', editBooking db today u ref s' d' n' = .ok db' →
        activeBookedGuests db s'.id d' + n' ≤ s'.effectiveMaxCap) := by
  constructor
  · intro hu hpast hcanc hslot hd hn hcap
    unfold editBooking
    rw [hf]
    dsimp only []
    rw [if_neg (not_ne_iff.mpr hu), if_neg hpast, if_neg hcanc,
      if_neg (not_not_intro hslot), if_neg hd, if_neg hn, if_pos hcap]
  · intro db' h
    obtain ⟨Y, hfY, -, -, -, -, -, -, hcap, -⟩ := editBooking_ok_elim h
    simp only [getAvailableCapacity] at hcap
    omega

/-- Witness for the C6 amended theorem: the concrete rejection with
availability 5, and a concrete successful edit (4 → 6 of 40) respecting the
including-self bound. -/
theorem editBooking_capacity_check_witness :
    editBooking dbC6 0 1 "EDITME00" slotC6 10 8
      = .err (.capacityForm (getAvailableCapacity dbC6 slotC6 10))
    ∧ activeBookedGuests dbW1 slotW.id 10 + 6 ≤ slotW.effectiveMaxCap := by
  constructor
  · exact (editBooking_capacity_check dbC6 0 1 "EDITME00" slotC6 10 8 bC6
      (by decide)).1 rfl (by decide) (by decide) (by decide) (by decide)
      (by decide) (by decide)
  · exact (editBooking_capacity_check dbW1 0 7 "AAAAAAAA" slotW 10 6 bW
      (by decide)).2 dbW1e (by decide)

/-- C7: with the booking looked up by reference, cancellation succeeds
exactly for the owner of a non-past, not-yet-cancelled booking; on success
the booking's status becomes Cancelled and `cancelled_at` is stamped; the
owner's repeat cancel of a non-past booking yields the already-cancelled
warning and changes nothing; and a past-dated booking is never cancelled,
the store staying unchanged. -/
theorem cancelBooking_lifecycle (db : DB) (today : Date) (now : Nat)
    (u : UserId) (ref : String) (X : Booking)
    (hf : db.bookings.find? (fun b => b.referenceNumber == ref) = some X) :
    ((cancelBooking db today now u ref).1 = .cancelled ↔
      X.user = u ∧ ¬ X.bookingDate < today ∧ X.status ≠ .Cancelled)
    ∧ ((cancelBooking db today now u ref).1 = .cancelled →
        (cancelBooking db today now u ref).2.bookings
          = db.bookings.map (fun b =>
              if b.id = X.id then
                { X with status := .Cancelled, cancelledAt := some now }
              else b))
    ∧ (X.user = u → ¬ X.bookingDate < today → X.status = .Cancelled →
        cancelBooking db today now u ref = (.alreadyCancelledWarning, db))
    ∧ (X.bookingDate < today →
        (cancelBooking db today now u ref).1 ≠ .cancelled
        ∧ (cancelBooking db today now u ref).2 = db) := by
  by_cases h1 : X.user ≠ u
  · have e : cancelBooking db today now u ref = (.ownership, db) := by
      unfold cancelBooking
      rw [hf]
      dsimp only []
      rw [if_pos h1]
    rw [e]
    exact ⟨⟨fun hc => CancelResult.noConfusion hc, fun hx => absurd hx.1 h1⟩,
      fun hc => CancelResult.noConfusion hc,
      fun hu _ _ => absurd hu h1,
      fun _ => ⟨fun hc => CancelResult.noConfusion hc, rfl⟩⟩
  · by_cases h2 : X.bookingDate < today
    · have e : cancelBooking db today now u ref = (.pastBooking, db) := by
        unfold cancelBooking
        rw [hf]
        dsimp only []
        rw [if_neg h1, if_pos h2]
      rw [e]
      exact ⟨⟨fun hc => CancelResult.noConfusion hc,
          fun hx => absurd h2 hx.2.1⟩,
        fun hc => CancelResult.noConfusion hc,
        fun _ hnp _ => absurd h2 hnp,
        fun _ => ⟨fun hc => CancelResult.noConfusion hc, rfl⟩⟩
    · by_cases h3 : X.status = .Cancelled
      · have e : cancelBooking db today now u ref
            = (.alreadyCancelledWarning, db) := by
          unfold cancelBooking
          rw [hf]
          dsimp only []
          rw [if_neg h1, if_neg h2, if_pos h3]
        rw [e]
        exact ⟨⟨fun hc => CancelResult.noConfusion hc,
            fun hx => absurd h3 hx.2.2⟩,
          fun hc => CancelResult.noConfusion hc,
          fun _ _ _ => rfl,
          fun hp => absurd hp h2⟩
      · have e : cancelBooking db today now u ref
            = (.cancelled, { db with bookings := db.bookings.map (fun b =>
                if b.id = X.id then
                  { X with status := .Cancelled, cancelledAt := some now }
                else b) }) := by
          unfold cancelBooking
          rw [hf]
          dsimp only []
          rw [if_neg h1, if_neg h2, if_neg h3]
        rw [e]
        exact ⟨⟨fun _ => ⟨not_ne_iff.mp h1, h2, h3⟩, fun _ => rfl⟩,
          fun _ => rfl,
          fun _ _ hc => absurd hc h3,
          fun hp => absurd hp h2⟩

/-- Witness for C7: the owner's cancel of the already-cancelled CANCEL01
yields the warning and leaves the store untouched. -/
theorem cancelBooking_lifecycle_witness :
    cancelBooking dbC7 5 99 1 "CANCEL01" = (.alreadyCancelledWarning, dbC7) :=
  (cancelBooking_lifecycle dbC7 5 99 1 "CANCEL01" bC7 (by decide)).2.2.1
    rfl (by decide) rfl

theorem cancelledIffStamped_create {db : DB} {today : Date} {req : Requester}
    {slot : TimeSlot} {d : Date} {n : Int} {rand : Nat → Fin 36} {fuel : Nat}
    {db' : DB} {b : Booking} (hst : cancelledIffStamped db)
    (h : createBooking db today req slot d n rand fuel = .ok db' b) :
    cancelledIffStamped db' := by
  obtain ⟨uid, ref, -, -, -, -, -, -, hb, hdb⟩ := createBooking_ok_elim h
  subst hb
  subst hdb
  intro x hx
  rcases List.mem_append.mp hx with hx | hx
  · exact hst x hx
  · rw [List.mem_singleton] at hx
    subst hx
    simp

theorem cancelledIffStamped_edit {db : DB} {today : Date} {u : UserId}
    {ref : String} {s' : TimeSlot} {d' : Date} {n' : Int} {db' : DB}
    (hst : cancelledIffStamped db)
    (h : editBooking db today u ref s' d' n' = .ok db') :
    cancelledIffStamped db' := by
  obtain ⟨X, hf, -, -, -, -, -, -, -, hdb⟩ := editBooking_ok_elim h
  subst hdb
  have hX : X ∈ db.bookings := List.mem_of_find?_eq_some hf
  intro x hx
  obtain ⟨a, ha, rfl⟩ := List.mem_map.mp hx
  by_cases hid : a.id = X.id
  · rw [if_pos hid]
    exact hst X hX
  · rw [if_neg hid]
    exact hst a ha

theorem cancelledIffStamped_cancel {db : DB} {today : Date} {now : Nat}
    {u : UserId} {ref : String} (hst : cancelledIffStamped db) :
    ∀ r db', cancelBooking db today now u ref = (r, db') →
      cancelledIffStamped db' := by
  intro r db' h
  unfold cancelBooking at h
  cases hf : db.bookings.find? (fun b => b.referenceNumber == ref) with
  | none =>
    rw [hf] at h
    injection h with h1 h2
    subst h2
    exact hst
  | some X =>
    rw [hf] at h
    dsimp only [] at h
    split_ifs at h with h1 h2 h3
    · injection h with h1e h2e
      subst h2e
      exact hst
    · injection h with h1e h2e
      subst h2e
      exact hst
    · injection h with h1e h2e
      subst h2e
      exact hst
    · injection h with h1e h2e
      subst h2e
      intro x hx
      obtain ⟨a, ha, rfl⟩ := List.mem_map.mp hx
      by_cases hid : a.id = X.id
      · rw [if_pos hid]
        simp
      · rw [if_neg hid]
        exact hst a ha

/-- C8 counterexample: `dbW1` satisfies the stamp invariant
(`cancelled_at` set iff status is Cancelled), but one admin status edit —
`status` sits in `list_editable` while `cancelled_at` is read-only and the
admin save never stamps it — moves booking 1 to Cancelled with
`cancelled_at` still NULL, so the invariant does not hold over all exposed
operations. -/
theorem admin_status_edit_breaks_stamp :
    cancelledIffStamped dbW1
    ∧ ¬ cancelledIffStamped (adminSetStatus dbW1 1 .Cancelled) := by decide

/-- C8 amended: `cancelled_at` is non-null exactly on Cancelled bookings in
every store reachable through the public create, edit and cancel
operations; the admin's direct status edit is the exception that can break
the equivalence. -/
theorem cancelled_stamp_public_ops
    (db : DB) (today : Date) (req : Requester) (slot : TimeSlot) (d : Date)
    (n : Int) (rand : Nat → Fin 36) (fuel : Nat) (u u2 : UserId)
    (ref ref2 : String) (s' : TimeSlot) (d' : Date) (n' : Int) (now : Nat)
    (hst : cancelledIffStamped db) :
    (∀ db' b, createBooking db today req slot d n rand fuel = .ok db' b →
      cancelledIffStamped db')
    ∧ (∀ db', editBooking db today u ref s' d' n' = .ok db' →
      cancelledIffStamped db')
    ∧ (∀ r db', cancelBooking db today now u2 ref2 = (r, db') →
      cancelledIffStamped db') :=
  ⟨fun _ _ h => cancelledIffStamped_create hst h,
   fun _ h => cancelledIffStamped_edit hst h,
   fun r db' h => cancelledIffStamped_cancel hst r db' h⟩

/-- Witness for the C8 amended theorem: concrete create, edit and cancel
runs all preserve the stamp invariant. -/
theorem cancelled_stamp_public_ops_witness :
    cancelledIffStamped dbW1 ∧ cancelledIffStamped dbW1e
    ∧ cancelledIffStamped dbW1c := by
  refine ⟨?_, ?_, ?_⟩
  · exact (cancelled_stamp_public_ops dbW 0 (.authUser 7) slotW 10 4 randW 1
      7 7 "AAAAAAAA" "AAAAAAAA" slotW 10 4 99 (by decide)).1 dbW1 bW (by decide)
  · exact (cancelled_stamp_public_ops dbW1 0 (.authUser 7) slotW 10 4 randW 1
      7 7 "AAAAAAAA" "AAAAAAAA" slotW 10 6 99 (by decide)).2.1 dbW1e (by decide)
  · exact (cancelled_stamp_public_ops dbW1 10 (.authUser 7) slotW 10 4 randW 1
      7 7 "AAAAAAAA" "AAAAAAAA" slotW 10 4 99 (by decide)).2.2 .cancelled dbW1c
      (by decide)

/-- C9: the Booking model has no guest identity fields and a non-nullable
user foreign key, so a guest create request with complete contact
information, a valid future date, an active slot and 40 free seats still
cannot persist a guest-owned booking: the save fails with IntegrityError
and nothing is stored. -/
theorem guest_create_never_persists :
    getAvailableCapacity dbW slotW 10 = 40
    ∧ createBooking dbW 0
        (.guest "Ana Silva" "ana@example.com" "+351911234567") slotW 10 4
        randW 1 = .err .integrity := by decide

/-- C10: deleting a user cascades over the `user` foreign key: a booking row
survives exactly when it existed before and belongs to a different user, so
no booking of the deleted user — Completed and Cancelled history included —
remains. -/
theorem deleteUser_cascades (db : DB) (uid : UserId) (b : Booking) :
    b ∈ (deleteUser db uid).bookings ↔ b ∈ db.bookings ∧ b.user ≠ uid := by
  simp [deleteUser, List.mem_filter]

end PK
